import Mathlib

/-!
Verification of the CURAMATE clinic-booking application's core logic:
the appointment booking flow (BookingDialog.tsx and
CreateAppointmentDialog.tsx), appointment cancellation (Appointments.tsx),
doctor filtering, and the chat send operation (Curax.tsx), shallowly
embedded in Lean 4.

Modelling conventions:
 - Calendar dates are day numbers (Nat); `format(date, "yyyy-MM-dd")` is an
   injective encoding of the day, so the stored `appointment_date` is the
   day number itself.
 - Timestamps are minutes: a calendar day `d` handed to the date picker is
   the instant `d * 1440` (start of day); "now" is `today * 1440 + nowMin`
   with `nowMin < 1440`.
 - Times of day are the literal strings of the fixed `timeSlots` list.
 - Row ids and user ids (uuids in the source) are Nat; only equality on
   them is ever used.
 - Numeric doctor attributes (rating, consultation_fee) are rationals.
-/

namespace Curamate

/-- Appointment status enumeration, from `src/lib/types.ts`. -/
inductive AppStatus
  | scheduled
  | confirmed
  | completed
  | cancelled
deriving DecidableEq, Repr

/-- The `Appointment` record of `src/lib/types.ts` (the embedded `doctor`
join is omitted; it is display-only). -/
structure Appointment where
  id : Nat
  patient_id : Nat
  doctor_id : Nat
  appointment_date : Nat
  appointment_time : String
  status : AppStatus
  notes : Option String
  reminder_sent : Bool
deriving DecidableEq, Repr

/-- The `Doctor` record of `src/lib/types.ts`. The weekly availability map
(day-name to boolean) is an association list. -/
structure Doctor where
  id : Nat
  user_id : Option Nat
  name : String
  specialization : String
  experience_years : Nat
  bio : Option String
  availability : List (String × Bool)
  rating : ℚ
  consultation_fee : ℚ
  is_featured : Bool
deriving DecidableEq, Repr

/-- The fixed ordered list of half-hour slots in the two daily windows,
from the `timeSlots` constant shared by both booking dialogs. -/
def timeSlots : List String :=
  ["09:00", "09:30", "10:00", "10:30", "11:00", "11:30",
   "14:00", "14:30", "15:00", "15:30", "16:00", "16:30", "17:00"]

/-! ## Date selectability (both dialogs, the Calendar `disabled` predicate)

The source disables a candidate date `d` when
`isBefore(d, startOfToday()) || isBefore(addDays(new Date(), 30), d)`.
`startOfToday()` is the instant `today * 1440`; `addDays(new Date(), 30)`
is `today * 1440 + nowMin + 30 * 1440`; the candidate `d` is the instant
`d * 1440`, and `isBefore` is strict comparison of instants. -/

/-- The Calendar `disabled` predicate of both booking dialogs
(BookingDialog.tsx line 153, CreateAppointmentDialog.tsx line 359). -/
def dateDisabled (today nowMin d : Nat) : Bool :=
  decide (d * 1440 < today * 1440) || decide (today * 1440 + nowMin + 30 * 1440 < d * 1440)

/-- A date is selectable exactly when the Calendar does not disable it. -/
def dateSelectable (today nowMin d : Nat) : Bool :=
  !dateDisabled today nowMin d

/-! ## Cancellation (`cancelAppointment` of Appointments.tsx)

The source issues `update({status: cancelled}).eq(id, appointmentId)`:
every row whose id matches gets status cancelled, nothing else changes. -/

/-- Effect of the cancellation update on one row. -/
def cancelRow (id : Nat) (a : Appointment) : Appointment :=
  if a.id = id then { a with status := .cancelled } else a

/-- `cancelAppointment` of Appointments.tsx as a ledger transformation:
the status-update applied to every row with the given id. -/
def cancelAppointment (id : Nat) (l : List Appointment) : List Appointment :=
  l.map (cancelRow id)

/-! ## The appointment ledger -/

/-- A storage-layer error as the client observes it (`error.code`,
`error.message` of the supabase response). -/
structure DbError where
  code : String
  msg : String
deriving DecidableEq, Repr

/-- The insert payload both dialogs send to the `appointments` table:
`{patient_id, doctor_id, appointment_date, appointment_time, notes}`. -/
structure InsertPayload where
  patient_id : Nat
  doctor_id : Nat
  appointment_date : Nat
  appointment_time : String
  notes : Option String
deriving DecidableEq, Repr

/-- Whether some non-cancelled row already occupies the payload's
(doctor, date, time) triple. -/
def slotTaken (l : List Appointment) (doctor date : Nat) (time : String) : Bool :=
  l.any fun a =>
    decide (a.doctor_id = doctor ∧ a.appointment_date = date ∧
      a.appointment_time = time ∧ a.status ≠ .cancelled)

/-- Modelled from the spec: the `appointments` table schema and its
migration are not under src (only the client code that inserts into it
is). Per the spec, the storage layer defaults `status` to "scheduled" and
`reminder_sent` to false on insert. -/
def mkRow (id : Nat) (p : InsertPayload) : Appointment :=
  { id := id
    patient_id := p.patient_id
    doctor_id := p.doctor_id
    appointment_date := p.appointment_date
    appointment_time := p.appointment_time
    status := .scheduled
    notes := p.notes
    reminder_sent := false }

/-- Modelled from the spec: the storage layer enforces uniqueness of the
(doctor, date, time) triple among rows whose status is not "cancelled",
rejecting a violating insert with the Postgres unique-violation error code
23505; a non-violating insert appends the new row with default status
"scheduled". -/
def ledgerInsert (l : List Appointment) (id : Nat) (p : InsertPayload) :
    Except DbError (List Appointment) :=
  if slotTaken l p.doctor_id p.appointment_date p.appointment_time then
    .error ⟨"23505", "duplicate key value violates unique constraint"⟩
  else
    .ok (l ++ [mkRow id p])

/-- `fetchBookedSlots` of both dialogs: the `appointment_time` values of
the rows for the given doctor and date whose status is not "cancelled",
each truncated to its first five characters. -/
def fetchBookedSlots (l : List Appointment) (doctor : Doctor) (date : Nat) :
    List String :=
  (l.filter fun a =>
      decide (a.doctor_id = doctor.id ∧ a.appointment_date = date ∧
        a.status ≠ .cancelled)).map
    fun a => a.appointment_time.take 5

/-- The uniqueness invariant of the spec: any two distinct non-cancelled
rows of the ledger differ in their (doctor, date, time) triple. -/
def UniqueActive (l : List Appointment) : Prop :=
  l.Pairwise fun a b =>
    a.status ≠ .cancelled → b.status ≠ .cancelled →
      ¬(a.doctor_id = b.doctor_id ∧ a.appointment_date = b.appointment_date ∧
        a.appointment_time = b.appointment_time)

/-- A client-side operation against the ledger: a booking insert (the id
is the fresh row id the storage layer generates) or a cancellation. -/
inductive LedgerOp
  | insert (id : Nat) (p : InsertPayload)
  | cancel (id : Nat)
deriving DecidableEq, Repr

/-- One operation applied to the committed ledger: a rejected insert
commits nothing. -/
def applyOp (l : List Appointment) : LedgerOp → List Appointment
  | .insert id p =>
    match ledgerInsert l id p with
    | .ok l2 => l2
    | .error _ => l
  | .cancel id => cancelAppointment id l

/-- A whole sequence of booking and cancel operations. -/
def applyOps (l : List Appointment) (ops : List LedgerOp) : List Appointment :=
  ops.foldl applyOp l

/-! ## The booking flow controllers

Both dialogs branch identically on the awaited supabase insert response;
the response itself (`none` for success, `some err` for a rejected insert
or a transport failure) is a parameter, and the composed versions below
instantiate it with the ledger's own answer. -/

/-- The wizard steps of both dialogs (BookingDialog uses only date
through success). -/
inductive Step
  | criteria
  | doctor
  | date
  | time
  | confirm
  | success
deriving DecidableEq, Repr

/-- A toast notification as the dialogs raise it. -/
structure Toast where
  title : String
  description : String
  destructive : Bool
deriving DecidableEq, Repr

/-- The "Slot Unavailable" toast of the conflict branch. -/
def slotUnavailableToast : Toast :=
  ⟨"Slot Unavailable", "This time slot has just been booked. Please choose another.", true⟩

/-- The generic "Booking Failed" toast carrying the underlying message. -/
def bookingFailedToast (msg : String) : Toast :=
  ⟨"Booking Failed", msg, true⟩

/-- The success toast. -/
def bookedToast (name : String) : Toast :=
  ⟨"Appointment Booked!", "Your appointment with " ++ name ++ " is confirmed.", false⟩

/-- Observable effects of one `handleBooking` run: the toasts raised and
whether the surrounding page was asked to refresh its appointment list
(the `onAppointmentCreated` callback). -/
structure BookingEffects where
  toasts : List Toast
  refreshRequested : Bool
deriving DecidableEq, Repr

/-- Dialog state of BookingDialog.tsx (the doctor is a prop, not state). -/
structure BDState where
  step : Step
  selectedDate : Option Nat
  selectedTime : Option String
  notes : String
  bookedSlots : List String
deriving DecidableEq, Repr

/-- Dialog state of CreateAppointmentDialog.tsx. -/
structure CADState where
  step : Step
  selectedSpecialization : String
  maxFee : ℚ
  minRating : ℚ
  minExperience : Nat
  doctors : List Doctor
  selectedDoctor : Option Doctor
  selectedDate : Option Nat
  selectedTime : Option String
  notes : String
  bookedSlots : List String
deriving DecidableEq, Repr

/-- The notes field as inserted: `notes || null`. -/
def notesOrNull (notes : String) : Option String :=
  if notes = "" then none else some notes

/-- The payload `handleBooking` builds from the acting user, the doctor
and the selections. -/
def bdPayload (u : Nat) (d : Doctor) (date : Nat) (t : String) (notes : String) :
    InsertPayload :=
  ⟨u, d.id, date, t, notesOrNull notes⟩

/-- `handleBooking` of BookingDialog.tsx, with the awaited insert
response as the `res` parameter: the guard returns unchanged when user,
doctor, date or time is missing; error code 23505 rewinds to the time
step and re-fetches the booked slots; any other error only toasts; no
error advances to success. BookingDialog has no refresh callback, so
`refreshRequested` is always false. -/
def bdHandleBooking (ledger : List Appointment) (user : Option Nat)
    (doctor : Option Doctor) (s : BDState) (res : Option DbError) :
    BDState × BookingEffects :=
  match user, doctor, s.selectedDate, s.selectedTime with
  | some _, some d, some date, some _ =>
    match res with
    | some err =>
      if err.code = "23505" then
        ({ s with step := .time, bookedSlots := fetchBookedSlots ledger d date },
         ⟨[slotUnavailableToast], false⟩)
      else
        (s, ⟨[bookingFailedToast err.msg], false⟩)
    | none =>
      ({ s with step := .success }, ⟨[bookedToast d.name], false⟩)
  | _, _, _, _ => (s, ⟨[], false⟩)

/-- `handleBooking` of CreateAppointmentDialog.tsx: identical branching,
except that the doctor is dialog state and success additionally invokes
`onAppointmentCreated`. -/
def cadHandleBooking (ledger : List Appointment) (user : Option Nat)
    (s : CADState) (res : Option DbError) : CADState × BookingEffects :=
  match user, s.selectedDoctor, s.selectedDate, s.selectedTime with
  | some _, some d, some date, some _ =>
    match res with
    | some err =>
      if err.code = "23505" then
        ({ s with step := .time, bookedSlots := fetchBookedSlots ledger d date },
         ⟨[slotUnavailableToast], false⟩)
      else
        (s, ⟨[bookingFailedToast err.msg], false⟩)
    | none =>
      ({ s with step := .success }, ⟨[bookedToast d.name], true⟩)
  | _, _, _, _ => (s, ⟨[], false⟩)

/-- BookingDialog's `handleBooking` composed with the ledger insert:
returns the committed ledger, the next dialog state and the effects. -/
def bdConfirmBooking (l : List Appointment) (freshId : Nat) (user : Option Nat)
    (doctor : Option Doctor) (s : BDState) :
    List Appointment × BDState × BookingEffects :=
  match user, doctor, s.selectedDate, s.selectedTime with
  | some u, some d, some date, some t =>
    match ledgerInsert l freshId (bdPayload u d date t s.notes) with
    | .error e => (l, bdHandleBooking l user doctor s (some e))
    | .ok l2 => (l2, bdHandleBooking l user doctor s none)
  | _, _, _, _ => (l, s, ⟨[], false⟩)

/-- CreateAppointmentDialog's `handleBooking` composed with the ledger
insert. -/
def cadConfirmBooking (l : List Appointment) (freshId : Nat) (user : Option Nat)
    (s : CADState) : List Appointment × CADState × BookingEffects :=
  match user, s.selectedDoctor, s.selectedDate, s.selectedTime with
  | some u, some d, some date, some t =>
    match ledgerInsert l freshId (bdPayload u d date t s.notes) with
    | .error e => (l, cadHandleBooking l user s (some e))
    | .ok l2 => (l2, cadHandleBooking l user s none)
  | _, _, _, _ => (l, s, ⟨[], false⟩)

/-! ## Doctor filtering (`fetchFilteredDoctors` of CreateAppointmentDialog.tsx)

The source builds a query with `lte(consultation_fee, maxFee)`,
`gte(rating, minRating)`, `gte(experience_years, minExperience)`, adds
`eq(specialization, S)` unless S is "All Specializations", and orders by
rating descending. The directory's answer is modelled as the filtered
list sorted (stably) by descending rating. -/

/-- Descending-rating order on doctors. -/
def ratingGE (a b : Doctor) : Prop :=
  b.rating ≤ a.rating

instance : DecidableRel ratingGE :=
  fun a b => inferInstanceAs (Decidable (b.rating ≤ a.rating))

instance : IsTotal Doctor ratingGE :=
  ⟨fun a b => le_total b.rating a.rating⟩

instance : IsTrans Doctor ratingGE :=
  ⟨fun _ _ _ hab hbc => le_trans hbc hab⟩

/-- `fetchFilteredDoctors` of CreateAppointmentDialog.tsx. -/
def fetchFilteredDoctors (directory : List Doctor) (spec : String)
    (maxFee minRating : ℚ) (minExperience : Nat) : List Doctor :=
  let base := directory.filter fun d =>
    decide (d.consultation_fee ≤ maxFee ∧ minRating ≤ d.rating ∧
      minExperience ≤ d.experience_years)
  let matching :=
    if spec = "All Specializations" then base
    else base.filter fun d => decide (d.specialization = spec)
  List.insertionSort ratingGE matching

/-! ## Observables of a booking run (for availability-independence) -/

/-- Everything the booking flow derives from the chosen doctor: the
fetched booked-slot list, the per-slot disabled flags of the time step,
and the payload the confirm step inserts. (Date selectability is computed
by `dateDisabled`, which takes no doctor input at all.) -/
structure FlowView where
  bookedSlots : List String
  slotDisabled : List Bool
  payload : InsertPayload
deriving DecidableEq, Repr

/-- The observables of one run of the flow for a given doctor. -/
def bookingView (l : List Appointment) (u : Nat) (d : Doctor) (date : Nat)
    (t : String) (notes : String) : FlowView :=
  { bookedSlots := fetchBookedSlots l d date
    slotDisabled := timeSlots.map fun slot => (fetchBookedSlots l d date).contains slot
    payload := bdPayload u d date t notes }

/-! ## The chat send operation (`sendMessage` of Curax.tsx) -/

/-- JavaScript `String.prototype.trim`: strip leading and trailing
whitespace (structural definition, so concrete runs evaluate). -/
def jsTrim (s : String) : String :=
  ⟨((s.data.dropWhile Char.isWhitespace).reverse.dropWhile Char.isWhitespace).reverse⟩

/-- A row of the `chat_messages` store. -/
structure ChatRow where
  user_id : Nat
  role : String
  content : String
deriving DecidableEq, Repr

/-- How one `sendMessage` run resolves: the gateway answers, the gateway
call throws, or the gateway answers but the assistant-row insert fails
(the source never checks that insert's error). -/
inductive SendOutcome
  | ok (response : String)
  | gatewayFail
  | assistantInsertFail (response : String)
deriving DecidableEq, Repr

/-- The `chat_messages` store after one `sendMessage` run: the trimmed
user message is inserted first; the assistant row is added only when the
gateway answered and its insert succeeded. Nothing is ever rolled back. -/
def sendMessageStore (store : List ChatRow) (uid : Nat) (input : String)
    (o : SendOutcome) : List ChatRow :=
  if jsTrim input = "" then store
  else
    let store1 := store ++ [⟨uid, "user", jsTrim input⟩]
    match o with
    | .ok resp => store1 ++ [⟨uid, "assistant", resp⟩]
    | .gatewayFail => store1
    | .assistantInsertFail _ => store1

/-- The externally visible actions of one `sendMessage` run, in program
order. -/
inductive ChatEvent
  | insertUser
  | callGateway
  | insertAssistant
deriving DecidableEq, Repr

/-- The action trace of one `sendMessage` run (an `insertAssistant` event
is the attempt; on `assistantInsertFail` it does not persist). -/
def sendMessageTrace (input : String) (o : SendOutcome) : List ChatEvent :=
  if jsTrim input = "" then []
  else
    match o with
    | .ok _ => [.insertUser, .callGateway, .insertAssistant]
    | .gatewayFail => [.insertUser, .callGateway]
    | .assistantInsertFail _ => [.insertUser, .callGateway, .insertAssistant]

/-! ## Theorems -/

/-- Claim C3, as the spec states it, fails at the upper boundary: the date
today + 30 satisfies d ≥ today + 30, so the claim calls it rejected, yet
the Calendar predicate of both dialogs accepts it (with today = day 0 and
the current time at minute 0 of the day). -/
theorem dateSelectable_claim_cex :
    0 + 30 ≤ 30 ∧ dateSelectable 0 0 30 = true := by
  exact ⟨by decide, by decide⟩

/-- Claim C3 amended: a calendar date d is selectable if and only if it
lies in the closed interval [today, today + 30] — 31 days, one more than
the half-open interval the spec names. `nowMin` is the current
minute-of-day, so `nowMin < 1440`. -/
theorem dateSelectable_iff (today nowMin d : Nat) (h : nowMin < 1440) :
    dateSelectable today nowMin d = true ↔ today ≤ d ∧ d ≤ today + 30 := by
  simp only [dateSelectable, dateDisabled, Bool.not_eq_true', Bool.or_eq_false_iff,
    decide_eq_false_iff_not, not_lt]
  omega

/-- Witness for `dateSelectable_iff` at today = 0, nowMin = 0, d = 15. -/
theorem dateSelectable_iff_witness :
    0 < 1440 ∧ (dateSelectable 0 0 15 = true ↔ 0 ≤ 15 ∧ 15 ≤ 0 + 30) :=
  ⟨by decide, dateSelectable_iff 0 0 15 (by decide)⟩

/-- `cancelRow` applied twice is `cancelRow` applied once. -/
theorem cancelRow_idem (id : Nat) (a : Appointment) :
    cancelRow id (cancelRow id a) = cancelRow id a := by
  by_cases h : a.id = id <;> simp [cancelRow, h]

/-- Claim C8: the cancellation update sets the matching row's status to
cancelled and changes no other field; it is idempotent in effect, and the
ledger-level operation is the same plain per-row update on every call
(no special-casing of already-cancelled rows). -/
theorem cancelAppointment_spec (id : Nat) (a : Appointment) (l : List Appointment) :
    (cancelRow id a).id = a.id ∧
    (cancelRow id a).patient_id = a.patient_id ∧
    (cancelRow id a).doctor_id = a.doctor_id ∧
    (cancelRow id a).appointment_date = a.appointment_date ∧
    (cancelRow id a).appointment_time = a.appointment_time ∧
    (cancelRow id a).notes = a.notes ∧
    (cancelRow id a).reminder_sent = a.reminder_sent ∧
    (cancelRow id a).status = (if a.id = id then .cancelled else a.status) ∧
    cancelAppointment id l = l.map (cancelRow id) ∧
    cancelAppointment id (cancelAppointment id l) = cancelAppointment id l := by
  have hfun : cancelRow id ∘ cancelRow id = cancelRow id :=
    funext fun a => cancelRow_idem id a
  refine ⟨?_, ?_, ?_, ?_, ?_, ?_, ?_, ?_, rfl, ?_⟩
  all_goals first
    | (unfold cancelRow; split <;> rfl)
    | (simp [cancelAppointment, List.map_map, hfun])

/-- A successful ledger insert appends exactly the new row. -/
theorem ledgerInsert_ok_eq {l : List Appointment} {id : Nat} {p : InsertPayload}
    {l2 : List Appointment} (h : ledgerInsert l id p = .ok l2) :
    l2 = l ++ [mkRow id p] := by
  unfold ledgerInsert at h
  split at h
  · exact absurd h (by simp)
  · injection h with h2
    exact h2.symm

/-- Claim C6: whatever the inputs, each run of `handleBooking` (either
dialog) either commits nothing or appends exactly one row, and that row
carries status "scheduled". -/
theorem confirmBooking_row_scheduled (l : List Appointment) (freshId : Nat)
    (user : Option Nat) (doctor : Option Doctor) (s : BDState) (s2 : CADState) :
    ((bdConfirmBooking l freshId user doctor s).1 = l ∨
      ∃ row, (bdConfirmBooking l freshId user doctor s).1 = l ++ [row] ∧
        row.status = .scheduled) ∧
    ((cadConfirmBooking l freshId user s2).1 = l ∨
      ∃ row, (cadConfirmBooking l freshId user s2).1 = l ++ [row] ∧
        row.status = .scheduled) := by
  constructor
  · unfold bdConfirmBooking
    split
    · split
      · exact Or.inl rfl
      · next l2 heq =>
          have h2 := ledgerInsert_ok_eq heq
          subst h2
          exact Or.inr ⟨_, rfl, rfl⟩
    · exact Or.inl rfl
  · unfold cadConfirmBooking
    split
    · split
      · exact Or.inl rfl
      · next l2 heq =>
          have h2 := ledgerInsert_ok_eq heq
          subst h2
          exact Or.inr ⟨_, rfl, rfl⟩
    · exact Or.inl rfl

/-- Claim C4: `fetchFilteredDoctors` returns exactly the doctors meeting
all four constraints (specialization filtered only when the selection is
not "All Specializations"), ordered non-increasingly by rating; an empty
result is simply the empty list. -/
theorem fetchFilteredDoctors_spec (directory : List Doctor) (S : String)
    (F R : ℚ) (E : Nat) :
    (∀ d, d ∈ fetchFilteredDoctors directory S F R E ↔
      d ∈ directory ∧ d.consultation_fee ≤ F ∧ R ≤ d.rating ∧
        E ≤ d.experience_years ∧
        (S ≠ "All Specializations" → d.specialization = S)) ∧
    List.Sorted ratingGE (fetchFilteredDoctors directory S F R E) := by
  constructor
  · intro d
    unfold fetchFilteredDoctors
    by_cases hS : S = "All Specializations" <;>
      simp [hS, List.mem_filter, and_assoc] <;> tauto
  · unfold fetchFilteredDoctors
    exact List.sorted_insertionSort ratingGE _

/-- Claim C9: the booking flow never reads the doctor's weekly
availability map. For two doctors equal in every field except
availability, the fetched booked-slot list, the per-slot disabled flags
and the attempted insert payload coincide (and the date-selectability
predicate `dateDisabled` takes no doctor input at all), so a day marked
unavailable does not block booking. -/
theorem bookingView_availability_independent (d1 d2 : Doctor)
    (hid : d1.id = d2.id) (huid : d1.user_id = d2.user_id)
    (hname : d1.name = d2.name) (hspec : d1.specialization = d2.specialization)
    (hexp : d1.experience_years = d2.experience_years) (hbio : d1.bio = d2.bio)
    (hrat : d1.rating = d2.rating) (hfee : d1.consultation_fee = d2.consultation_fee)
    (hfeat : d1.is_featured = d2.is_featured)
    (l : List Appointment) (u date : Nat) (t notes : String) :
    bookingView l u d1 date t notes = bookingView l u d2 date t notes := by
  simp [bookingView, fetchBookedSlots, bdPayload, hid]

/-- A doctor available on Monday. -/
def docAvail : Doctor :=
  ⟨1, none, "Dr A", "Cardiologist", 10, none, [("Monday", true)], 9 / 2, 100, false⟩

/-- The same doctor with an empty availability map. -/
def docNoAvail : Doctor :=
  { docAvail with availability := [] }

/-- Witness for `bookingView_availability_independent`: two doctors that
differ exactly in availability yield identical booking observables. -/
theorem bookingView_availability_independent_witness :
    docAvail.availability ≠ docNoAvail.availability ∧
    bookingView [] 1 docAvail 100 "09:00" "" = bookingView [] 1 docNoAvail 100 "09:00" "" :=
  ⟨by decide,
   bookingView_availability_independent docAvail docNoAvail rfl rfl rfl rfl rfl rfl
     rfl rfl rfl [] 1 100 "09:00" ""⟩

/-- `cancelRow` preserves the (doctor, date, time) triple. -/
theorem cancelRow_triple (id : Nat) (a : Appointment) :
    (cancelRow id a).doctor_id = a.doctor_id ∧
    (cancelRow id a).appointment_date = a.appointment_date ∧
    (cancelRow id a).appointment_time = a.appointment_time := by
  unfold cancelRow
  split <;> exact ⟨rfl, rfl, rfl⟩

/-- `cancelRow` either cancels the row or leaves its status alone. -/
theorem cancelRow_status_cases (id : Nat) (a : Appointment) :
    (cancelRow id a).status = .cancelled ∨ (cancelRow id a).status = a.status := by
  unfold cancelRow
  split
  · exact Or.inl rfl
  · exact Or.inr rfl

/-- An insert the conflict check lets through preserves the uniqueness
invariant. -/
theorem uniqueActive_insert (l : List Appointment) (id : Nat) (p : InsertPayload)
    (hfree : slotTaken l p.doctor_id p.appointment_date p.appointment_time = false)
    (h : UniqueActive l) : UniqueActive (l ++ [mkRow id p]) := by
  unfold UniqueActive at h ⊢
  rw [List.pairwise_append]
  refine ⟨h, List.pairwise_singleton _ _, ?_⟩
  intro a ha b hb
  simp only [List.mem_singleton] at hb
  subst hb
  intro hA _ htriple
  simp only [slotTaken, List.any_eq_false, decide_eq_true_eq, not_and] at hfree
  exact hfree a ha htriple.1 htriple.2.1 htriple.2.2 hA

/-- Cancellation preserves the uniqueness invariant: it only moves rows
out of the non-cancelled set and never touches a triple. -/
theorem uniqueActive_cancel (id : Nat) (l : List Appointment)
    (h : UniqueActive l) : UniqueActive (cancelAppointment id l) := by
  unfold UniqueActive cancelAppointment
  rw [List.pairwise_map]
  refine h.imp ?_
  intro a b hab hA hB htriple
  have ta := cancelRow_triple id a
  have tb := cancelRow_triple id b
  have ha2 : a.status ≠ .cancelled := by
    intro hc
    apply hA
    rcases cancelRow_status_cases id a with h1 | h1
    · exact h1
    · rw [h1, hc]
  have hb2 : b.status ≠ .cancelled := by
    intro hc
    apply hB
    rcases cancelRow_status_cases id b with h1 | h1
    · exact h1
    · rw [h1, hc]
  refine hab ha2 hb2 ⟨?_, ?_, ?_⟩
  · rw [← ta.1, ← tb.1]
    exact htriple.1
  · rw [← ta.2.1, ← tb.2.1]
    exact htriple.2.1
  · rw [← ta.2.2, ← tb.2.2]
    exact htriple.2.2

/-- Each single client operation preserves the uniqueness invariant. -/
theorem uniqueActive_applyOp (l : List Appointment) (op : LedgerOp)
    (h : UniqueActive l) : UniqueActive (applyOp l op) := by
  cases op with
  | insert id p =>
    show UniqueActive (match ledgerInsert l id p with | .ok l2 => l2 | .error _ => l)
    cases hins : ledgerInsert l id p with
    | error e => exact h
    | ok l2 =>
      have h2 := ledgerInsert_ok_eq hins
      subst h2
      unfold ledgerInsert at hins
      split at hins
      · exact absurd hins (by simp)
      · next hfree =>
          exact uniqueActive_insert l id p (by simpa using hfree) h
  | cancel id => exact uniqueActive_cancel id l h

/-- Claim C1: the uniqueness invariant — no two distinct non-cancelled
rows share a (doctor, date, time) triple — is enforced by the storage
layer's conflict check and preserved by every sequence of booking inserts
and cancellations the client issues. -/
theorem uniqueActive_applyOps (l : List Appointment) (ops : List LedgerOp)
    (h : UniqueActive l) : UniqueActive (applyOps l ops) := by
  induction ops generalizing l with
  | nil => exact h
  | cons op rest ih => exact ih (applyOp l op) (uniqueActive_applyOp l op h)

/-- A concrete operation sequence: two bookings of the same slot (the
second is rejected), a cancellation freeing the slot, and a re-booking. -/
def opsEx : List LedgerOp :=
  [.insert 1 ⟨1, 2, 100, "09:00", none⟩,
   .insert 2 ⟨3, 2, 100, "09:00", none⟩,
   .cancel 1,
   .insert 3 ⟨3, 2, 100, "09:00", some "checkup"⟩]

/-- Witness for `uniqueActive_applyOps` on the empty ledger and `opsEx`. -/
theorem uniqueActive_applyOps_witness :
    UniqueActive ([] : List Appointment) ∧ UniqueActive (applyOps [] opsEx) :=
  ⟨by simp [UniqueActive], uniqueActive_applyOps [] opsEx (by simp [UniqueActive])⟩

/-- Claim C2: when the insert is rejected by the storage-layer uniqueness
check (error code 23505), both dialogs commit nothing, rewind to the time
step with the occupied-slot list re-fetched for the same doctor and date,
raise only the recoverable slot-unavailable toast, and — because the rest
of the state record is untouched — retain the chosen doctor and date. -/
theorem conflict_recovery (l : List Appointment) (freshId u : Nat) (d : Doctor)
    (s : BDState) (s2 : CADState) (date : Nat) (t : String)
    (hsd : s.selectedDate = some date) (hst : s.selectedTime = some t)
    (h2doc : s2.selectedDoctor = some d) (h2date : s2.selectedDate = some date)
    (h2time : s2.selectedTime = some t)
    (htaken : slotTaken l d.id date t = true) :
    bdConfirmBooking l freshId (some u) (some d) s =
      (l, { s with step := .time, bookedSlots := fetchBookedSlots l d date },
        ⟨[slotUnavailableToast], false⟩) ∧
    cadConfirmBooking l freshId (some u) s2 =
      (l, { s2 with step := .time, bookedSlots := fetchBookedSlots l d date },
        ⟨[slotUnavailableToast], false⟩) := by
  constructor
  · simp [bdConfirmBooking, hsd, hst, ledgerInsert, bdPayload, htaken, bdHandleBooking]
  · simp [cadConfirmBooking, h2doc, h2date, h2time, ledgerInsert, bdPayload, htaken,
      cadHandleBooking]

/-- A one-row ledger whose single row occupies (doctor 1, day 100, 09:00). -/
def lEx : List Appointment :=
  [⟨10, 5, 1, 100, "09:00", .scheduled, none, false⟩]

/-- A BookingDialog state at the confirm step with day 100 and 09:00 chosen. -/
def bdS0 : BDState :=
  ⟨.confirm, some 100, some "09:00", "", []⟩

/-- A CreateAppointmentDialog state at the confirm step with `docAvail`,
day 100 and 09:00 chosen. -/
def cadS0 : CADState :=
  ⟨.confirm, "All Specializations", 500, 3, 0, [], some docAvail, some 100, some "09:00", "", []⟩

/-- Witness for `conflict_recovery`: booking the already-taken 09:00 slot
of day 100 against `lEx`. -/
theorem conflict_recovery_witness :
    slotTaken lEx docAvail.id 100 "09:00" = true ∧
    (bdConfirmBooking lEx 99 (some 5) (some docAvail) bdS0 =
      (lEx, { bdS0 with step := .time, bookedSlots := fetchBookedSlots lEx docAvail 100 },
        ⟨[slotUnavailableToast], false⟩) ∧
    cadConfirmBooking lEx 99 (some 5) cadS0 =
      (lEx, { cadS0 with step := .time, bookedSlots := fetchBookedSlots lEx docAvail 100 },
        ⟨[slotUnavailableToast], false⟩)) :=
  ⟨by decide,
   conflict_recovery lEx 99 5 docAvail bdS0 cadS0 100 "09:00" rfl rfl rfl rfl rfl (by decide)⟩

/-- Claim C5 as stated is false at the BookingDialog call site: a
successful insert there reaches the success step but requests no
appointment-list refresh (the dialog has no such callback). -/
theorem success_refresh_claim_cex :
    (bdHandleBooking [] (some 5) (some docAvail) bdS0 none).1.step = .success ∧
    (bdHandleBooking [] (some 5) (some docAvail) bdS0 none).2.refreshRequested = false :=
  ⟨rfl, rfl⟩

/-- Claim C5 amended: on a successful insert both flows transition to the
success step; the criteria-driven wizard notifies the surrounding page to
refresh its appointment list, while the pre-selected-doctor dialog has no
refresh callback and notifies nothing. -/
theorem success_transitions (l : List Appointment) (freshId u : Nat) (d : Doctor)
    (s : BDState) (s2 : CADState) (date : Nat) (t : String)
    (hsd : s.selectedDate = some date) (hst : s.selectedTime = some t)
    (h2doc : s2.selectedDoctor = some d) (h2date : s2.selectedDate = some date)
    (h2time : s2.selectedTime = some t)
    (hfree : slotTaken l d.id date t = false) :
    (bdConfirmBooking l freshId (some u) (some d) s).2.1.step = .success ∧
    (bdConfirmBooking l freshId (some u) (some d) s).2.2.refreshRequested = false ∧
    (cadConfirmBooking l freshId (some u) s2).2.1.step = .success ∧
    (cadConfirmBooking l freshId (some u) s2).2.2.refreshRequested = true := by
  refine ⟨?_, ?_, ?_, ?_⟩ <;>
    simp [bdConfirmBooking, cadConfirmBooking, hsd, hst, h2doc, h2date, h2time,
      ledgerInsert, bdPayload, hfree, bdHandleBooking, cadHandleBooking]

/-- Witness for `success_transitions`: booking the free 09:00 slot of day
100 on the empty ledger. -/
theorem success_transitions_witness :
    slotTaken [] docAvail.id 100 "09:00" = false ∧
    ((bdConfirmBooking [] 99 (some 5) (some docAvail) bdS0).2.1.step = .success ∧
    (bdConfirmBooking [] 99 (some 5) (some docAvail) bdS0).2.2.refreshRequested = false ∧
    (cadConfirmBooking [] 99 (some 5) cadS0).2.1.step = .success ∧
    (cadConfirmBooking [] 99 (some 5) cadS0).2.2.refreshRequested = true) :=
  ⟨rfl,
   success_transitions [] 99 5 docAvail bdS0 cadS0 100 "09:00" rfl rfl rfl rfl rfl rfl⟩

/-- Claim C7: any insert failure other than the uniqueness conflict
leaves both dialogs exactly as they were — still at the confirm step with
every selection intact — and raises the generic failure toast carrying
the underlying error message. -/
theorem other_failure_stays (ledger : List Appointment) (u : Nat) (d : Doctor)
    (s : BDState) (s2 : CADState) (date : Nat) (t : String) (err : DbError)
    (hcode : err.code ≠ "23505")
    (hsd : s.selectedDate = some date) (hst : s.selectedTime = some t)
    (hstep : s.step = .confirm)
    (h2doc : s2.selectedDoctor = some d) (h2date : s2.selectedDate = some date)
    (h2time : s2.selectedTime = some t) (h2step : s2.step = .confirm) :
    bdHandleBooking ledger (some u) (some d) s (some err) =
      (s, ⟨[bookingFailedToast err.msg], false⟩) ∧
    (bdHandleBooking ledger (some u) (some d) s (some err)).1.step = .confirm ∧
    cadHandleBooking ledger (some u) s2 (some err) =
      (s2, ⟨[bookingFailedToast err.msg], false⟩) ∧
    (cadHandleBooking ledger (some u) s2 (some err)).1.step = .confirm := by
  refine ⟨?_, ?_, ?_, ?_⟩ <;>
    simp [bdHandleBooking, cadHandleBooking, hsd, hst, hstep, h2doc, h2date, h2time,
      h2step, hcode]

/-- A transport-level failure, distinguishable from the conflict code. -/
def connErr : DbError :=
  ⟨"08006", "connection failure"⟩

/-- Witness for `other_failure_stays` with a connection failure. -/
theorem other_failure_stays_witness :
    connErr.code ≠ "23505" ∧
    (bdHandleBooking lEx (some 5) (some docAvail) bdS0 (some connErr) =
      (bdS0, ⟨[bookingFailedToast connErr.msg], false⟩) ∧
    (bdHandleBooking lEx (some 5) (some docAvail) bdS0 (some connErr)).1.step = .confirm ∧
    cadHandleBooking lEx (some 5) cadS0 (some connErr) =
      (cadS0, ⟨[bookingFailedToast connErr.msg], false⟩) ∧
    (cadHandleBooking lEx (some 5) cadS0 (some connErr)).1.step = .confirm) :=
  ⟨by decide,
   other_failure_stays lEx 5 docAvail bdS0 cadS0 100 "09:00" connErr (by decide)
     rfl rfl rfl rfl rfl rfl rfl⟩

/-- Claim C10: the chat send is not atomic — the user row is inserted
(and stays inserted) before the gateway is invoked, so a run whose
gateway call or assistant-row insert fails leaves the store grown by
exactly the trimmed user message, with no assistant reply and no
rollback. -/
theorem sendMessage_not_atomic (store : List ChatRow) (uid : Nat) (input : String)
    (o : SendOutcome) (hin : jsTrim input ≠ "")
    (hfail : o = .gatewayFail ∨ ∃ r, o = .assistantInsertFail r) :
    sendMessageStore store uid input o = store ++ [⟨uid, "user", jsTrim input⟩] ∧
    (∃ rest, sendMessageTrace input o = .insertUser :: .callGateway :: rest) := by
  rcases hfail with hfail | ⟨r, hfail⟩ <;> subst hfail <;>
    simp [sendMessageStore, sendMessageTrace, hin]

/-- Witness for `sendMessage_not_atomic`: a gateway failure on input
"hi" over the empty store. -/
theorem sendMessage_not_atomic_witness :
    jsTrim "hi" ≠ "" ∧
    (sendMessageStore [] 1 "hi" .gatewayFail = [] ++ [⟨1, "user", jsTrim "hi"⟩] ∧
    (∃ rest, sendMessageTrace "hi" .gatewayFail = .insertUser :: .callGateway :: rest)) :=
  ⟨by decide,
   sendMessage_not_atomic [] 1 "hi" .gatewayFail (by decide) (Or.inl rfl)⟩

end Curamate
